import Mathlib

/-!
Shallow embedding of the posts API of `wyjeon/nodejs-mongoose-tutorial`.

The repository is a Koa + Mongoose CRUD tutorial.  The authoritative
controller is `src/unnamed/part_002` (the final `posts.ctrl.js`): five
handlers `write`, `list`, `read`, `remove`, `update` plus the middleware
`checkObjectId`, over the model `src/src/models/post.js`.

Modelling decisions:
* A request body is a JSON object, embedded as an association list of
  field name / `JValue` pairs.
* The MongoDB store is a list of `Post` records plus a counter from which
  fresh ObjectIds are generated (`objectIdOf`); ObjectIds are the 24-digit
  hex strings mongoose produces, and `sort(\x7b _id: -1 \x7d)` is descending
  string order on those ids (bytewise ObjectId order coincides with it for
  ids of this shape).
* Joi's behaviour (`Joi.string().required()` rejects missing keys,
  non-strings and empty strings; `Joi.array().items(Joi.string())`
  rejects non-arrays and bad items; unknown keys are rejected) is embedded
  in `validateWrite` / `validateUpdate`.
* Mongoose casts the `:id` path parameter to an ObjectId before querying;
  a string that fails `ObjectId.isValid` makes `findById` /
  `findByIdAndRemove` / `findByIdAndUpdate` throw a `CastError`, which the
  handlers' `try/catch` turns into `ctx.throw(500, e)`.  This is embedded
  as the 500 branch of `read` / `remove` / `update`.
* Every handler is a function `Store → args → Store × Response`; koa's
  default status 200 applies when a handler only sets `ctx.body`.
* JS string `.length` and `.slice` count UTF-16 units; we model them on
  the character list of a Lean `String` (`jsLength`, `jsSlice`), which
  agrees on the ASCII/BMP strings the claims exercise.
-/

namespace PostsApi

/-- JSON values, as delivered by koa's body parser. -/
inductive JValue where
  | jstr (s : String)
  | jnum (n : Int)
  | jbool (b : Bool)
  | jarr (elems : List JValue)
  | jobj (fields : List (String × JValue))

/-- A stored post document, per `PostSchema` in `src/src/models/post.js`.
`id` is the store-assigned `_id`; note the schema spells the timestamp
field `publishedData` (not `publishedDate`). -/
structure Post where
  id : String
  title : String
  body : String
  tags : List String
  publishedData : Nat
deriving DecidableEq

/-- The MongoDB collection plus the source of fresh ObjectIds. -/
structure Store where
  posts : List Post
  counter : Nat
deriving DecidableEq

/-- What a handler puts into `ctx.body`. -/
inductive RespBody where
  | empty
  | post (p : Post)
  | posts (ps : List Post)
  | error (e : String)
deriving DecidableEq

/-- The response a handler assembles on the koa context: `ctx.status`,
`ctx.body`, and the `Last-Page` header set via `ctx.set`. -/
structure Response where
  status : Nat
  body : RespBody
  lastPage : Option Nat
deriving DecidableEq

/-- JS `s.length`. -/
def jsLength (s : String) : Nat := s.data.length

/-- JS `s.slice(0, n)`. -/
def jsSlice (s : String) (n : Nat) : String := String.mk (s.data.take n)

/-! ### ObjectId model (mongoose `Types.ObjectId`) -/

/-- Hex digit characters accepted by the ObjectId format. -/
def isHexChar (c : Char) : Bool :=
  c.isDigit || (97 ≤ c.toNat && c.toNat ≤ 102) || (65 ≤ c.toNat && c.toNat ≤ 70)

/-- Mongoose `ObjectId.isValid` on strings: a 12-character string or a
24-character hex string. -/
def isValidObjectId (s : String) : Bool :=
  s.data.length = 12 || (s.data.length = 24 && s.data.all isHexChar)

/-- The hex digit character for a value below 16. -/
def hexChar (n : Nat) : Char :=
  if n < 10 then Char.ofNat (48 + n) else Char.ofNat (87 + n)

/-- The 24-digit hex ObjectId the store assigns to the `n`-th created
document.  Fresh ids come from an increasing counter, so later ids are
larger — matching real ObjectIds, whose leading timestamp bytes make
creation order and id order agree. -/
def objectIdOf (n : Nat) : String :=
  String.mk ((List.range 24).map (fun i => hexChar (n / 16 ^ (23 - i) % 16)))

/-! ### Joi validation model -/

/-- Field lookup in a JSON object. -/
def lookupField (b : List (String × JValue)) (k : String) : Option JValue :=
  (b.find? (fun kv => kv.1 == k)).map (fun kv => kv.2)

/-- First error wins (Joi's default `abortEarly`). -/
def firstErr (a b : Option String) : Option String :=
  match a with
  | some e => some e
  | none => b

/-- `Joi.string().required()` on field `k`: the key must be present, be a
string, and (Joi's default) not be empty. -/
def checkStrField (b : List (String × JValue)) (k : String) : Option String :=
  match lookupField b k with
  | none => some (k ++ " is required")
  | some (JValue.jstr s) => if s = "" then some (k ++ " is not allowed to be empty") else none
  | some _ => some (k ++ " must be a string")

/-- `Joi.string()` items of the `tags` array. -/
def checkItems : List JValue → Option String
  | [] => none
  | JValue.jstr s :: rest =>
    if s = "" then some "tags item is not allowed to be empty" else checkItems rest
  | _ :: _ => some "tags item must be a string"

/-- `Joi.array().items(Joi.string()).required()` on `tags`. -/
def checkTagsRequired (b : List (String × JValue)) : Option String :=
  match lookupField b "tags" with
  | none => some "tags is required"
  | some (JValue.jarr xs) => checkItems xs
  | some _ => some "tags must be an array"

/-- Joi objects reject keys outside the schema. -/
def checkUnknown (b : List (String × JValue)) : Option String :=
  match b.find? (fun kv => !(kv.1 == "title" || kv.1 == "body" || kv.1 == "tags")) with
  | some kv => some (kv.1 ++ " is not allowed")
  | none => none

/-- The `write` handler's schema: `title`, `body`, `tags` all required. -/
def validateWrite (b : List (String × JValue)) : Option String :=
  firstErr (checkStrField b "title")
    (firstErr (checkStrField b "body")
      (firstErr (checkTagsRequired b) (checkUnknown b)))

/-- `Joi.string()` on an optional field `k` of the `update` schema. -/
def checkOptStrField (b : List (String × JValue)) (k : String) : Option String :=
  match lookupField b k with
  | none => none
  | some (JValue.jstr s) => if s = "" then some (k ++ " is not allowed to be empty") else none
  | some _ => some (k ++ " must be a string")

/-- `Joi.array().items(Joi.string())` on the optional `tags` field. -/
def checkTagsOpt (b : List (String × JValue)) : Option String :=
  match lookupField b "tags" with
  | none => none
  | some (JValue.jarr xs) => checkItems xs
  | some _ => some "tags must be an array"

/-- The `update` handler's schema: same fields, none required. -/
def validateUpdate (b : List (String × JValue)) : Option String :=
  firstErr (checkOptStrField b "title")
    (firstErr (checkOptStrField b "body")
      (firstErr (checkTagsOpt b) (checkUnknown b)))

/-- Structural test: is the JSON value a string? -/
def isStrVal : JValue → Bool
  | JValue.jstr _ => true
  | _ => false

/-- Structural test: is the JSON value an array? -/
def isArrVal : JValue → Bool
  | JValue.jarr _ => true
  | _ => false

/-- Precondition of claim C1, first half: the request body is missing one
of the required `title` / `body` / `tags` fields. -/
def missingRequired (b : List (String × JValue)) : Bool :=
  (lookupField b "title").isNone || (lookupField b "body").isNone
    || (lookupField b "tags").isNone

/-- Precondition of claim C1, second half: a provided required field has
the wrong type (`title` / `body` not a string, `tags` not an array). -/
def wrongTypedField (b : List (String × JValue)) : Bool :=
  (match lookupField b "title" with | some v => !isStrVal v | none => false)
    || (match lookupField b "body" with | some v => !isStrVal v | none => false)
    || (match lookupField b "tags" with | some v => !isArrVal v | none => false)

/-! ### The `checkObjectId` middleware -/

/-- `export const checkObjectId = (ctx, next) => ...`: reject a path id
that is not a syntactically valid ObjectId with a bare 400, otherwise
run `next()`. -/
def checkObjectId (id : String) (next : Store → Store × Response)
    (store : Store) : Store × Response :=
  if isValidObjectId id then next store
  else (store, ⟨400, RespBody.empty, none⟩)

/-! ### The `write` handler -/

/-- String content of a validated string field (validation guarantees the
default branch is unreachable). -/
def getStrField (b : List (String × JValue)) (k : String) : String :=
  match lookupField b k with
  | some (JValue.jstr s) => s
  | _ => ""

/-- String contents of a validated array of JSON strings. -/
def jstrsOf (xs : List JValue) : List String :=
  xs.map (fun v => match v with | JValue.jstr s => s | _ => "")

/-- Tags of a validated request body. -/
def getTags (b : List (String × JValue)) : List String :=
  match lookupField b "tags" with
  | some (JValue.jarr xs) => jstrsOf xs
  | _ => []

/-- `new Post({ title, body, tags })` followed by `save()`: the store
assigns the id, the schema default fills the timestamp with `Date.now`. -/
def mkPost (store : Store) (b : List (String × JValue)) (now : Nat) : Post :=
  { id := objectIdOf store.counter
    title := getStrField b "title"
    body := getStrField b "body"
    tags := getTags b
    publishedData := now }

/-- The `write` handler (POST /api/posts). -/
def write (store : Store) (b : List (String × JValue)) (now : Nat) :
    Store × Response :=
  match validateWrite b with
  | some e => (store, ⟨400, RespBody.error e, none⟩)
  | none =>
    ({ posts := store.posts ++ [mkPost store b now], counter := store.counter + 1 },
      ⟨200, RespBody.post (mkPost store b now), none⟩)

/-! ### The `list` handler -/

/-- JS `parseInt(s, 10)`: skip leading whitespace, optional sign, longest
digit prefix; `none` models `NaN`. -/
def parseDigits (cs : List Char) : Option Nat :=
  let ds := cs.takeWhile Char.isDigit
  if ds.isEmpty then none
  else some (ds.foldl (fun a c => a * 10 + (c.toNat - 48)) 0)

/-- JS `parseInt(s, 10)` (result `none` is `NaN`). -/
def parseIntJS (s : String) : Option Int :=
  match s.data.dropWhile Char.isWhitespace with
  | '-' :: rest => (parseDigits rest).map (fun n => -(n : Int))
  | '+' :: rest => (parseDigits rest).map (fun n => (n : Int))
  | rest => (parseDigits rest).map (fun n => (n : Int))

/-- `ctx.query.page || '1'`: the empty string is falsy. -/
def pageString (qp : Option String) : String :=
  match qp with
  | none => "1"
  | some s => if s = "" then "1" else s

/-- JS `page < 1`: every comparison with `NaN` is false. -/
def pageLtOne : Option Int → Bool
  | none => false
  | some n => decide (n < 1)

/-- The query `Post.find().sort(...).limit(10).skip(...)` the handler
issues when the page check passes; `skip = none` is a `NaN` skip value. -/
structure ListQuery where
  skip : Option Int
  limit : Nat
deriving DecidableEq

/-- Page parsing and validation of `list`: `none` is the 400 short-circuit,
otherwise the store query it proceeds to issue. -/
def listPlan (qp : Option String) : Option ListQuery :=
  let page := parseIntJS (pageString qp)
  if pageLtOne page then none
  else some { skip := page.map (fun n => (n - 1) * 10), limit := 10 }

/-- Lexicographic `≤` on character lists: the order MongoDB's bytewise
ObjectId comparison induces on the hex id strings of this model. -/
def charListLe : List Char → List Char → Bool
  | [], _ => true
  | _ :: _, [] => false
  | a :: as, b :: bs =>
    if a.toNat < b.toNat then true
    else if b.toNat < a.toNat then false
    else charListLe as bs

/-- Descending `_id` order used by `sort(\x7b _id: -1 \x7d)`. -/
def idGe (a b : Post) : Prop := charListLe b.id.data a.id.data = true

instance : DecidableRel idGe :=
  fun a b => inferInstanceAs (Decidable (charListLe b.id.data a.id.data = true))

/-- The collection in descending id order. -/
def sortByIdDesc (l : List Post) : List Post := List.insertionSort idGe l

/-- Number of documents MongoDB skips.  The claims only exercise
non-negative integer skips; what the server does with a `NaN` skip is
outside the model and never used by a theorem. -/
def jsSkipNat : Option Int → Nat
  | some n => n.toNat
  | none => 0

/-- Execution of the find query: sort descending, `skip`, then `limit`
(MongoDB applies skip before limit regardless of chaining order). -/
def runListQuery (store : Store) (q : ListQuery) : List Post :=
  ((sortByIdDesc store.posts).drop (jsSkipNat q.skip)).take q.limit

/-- `post.body.length < 200 ? post.body : post.body.slice(0, 200) + '...'`. -/
def truncBody (s : String) : String :=
  if jsLength s < 200 then s else jsSlice s 200 ++ "..."

/-- The display copy `{ ...post, body: ... }` built for the list output. -/
def truncPost (p : Post) : Post := { p with body := truncBody p.body }

/-- `Math.ceil(postCount / 10)`. -/
def lastPageOf (count : Nat) : Nat := (count + 9) / 10

/-- The `list` handler (GET /api/posts?page=N). -/
def list (store : Store) (qp : Option String) : Store × Response :=
  match listPlan qp with
  | none => (store, ⟨400, RespBody.empty, none⟩)
  | some q =>
    (store,
      ⟨200, RespBody.posts ((runListQuery store q).map truncPost),
        some (lastPageOf store.posts.length)⟩)

/-! ### The `read`, `remove` and `update` handlers -/

/-- The `read` handler (GET /api/posts/:id): `findById` throws a
`CastError` on an uncastable id (→ 500), returns `null` when no document
matches (→ 404), else the document. -/
def read (store : Store) (id : String) : Store × Response :=
  (store,
    if isValidObjectId id then
      match store.posts.find? (fun p => p.id == id) with
      | none => ⟨404, RespBody.empty, none⟩
      | some p => ⟨200, RespBody.post p, none⟩
    else ⟨500, RespBody.empty, none⟩)

/-- The `remove` handler (DELETE /api/posts/:id): `findByIdAndRemove`
deletes the matching document if any, then the handler answers 204;
an uncastable id makes it throw (→ 500). -/
def remove (store : Store) (id : String) : Store × Response :=
  if isValidObjectId id then
    ({ posts := store.posts.eraseP (fun p => p.id == id), counter := store.counter },
      ⟨204, RespBody.empty, none⟩)
  else (store, ⟨500, RespBody.empty, none⟩)

/-- `findByIdAndUpdate`'s `$set` of the validated partial body: each
provided field replaces the stored one, everything else is kept. -/
def applyUpdate (p : Post) (b : List (String × JValue)) : Post :=
  { p with
    title := match lookupField b "title" with
      | some (JValue.jstr s) => s
      | _ => p.title
    body := match lookupField b "body" with
      | some (JValue.jstr s) => s
      | _ => p.body
    tags := match lookupField b "tags" with
      | some (JValue.jarr xs) => jstrsOf xs
      | _ => p.tags }

/-- Update of the (unique) matching document inside the collection. -/
def updateFirst (l : List Post) (id : String) (b : List (String × JValue)) :
    List Post :=
  match l with
  | [] => []
  | p :: rest =>
    if p.id == id then applyUpdate p b :: rest else p :: updateFirst rest id b

/-- The `update` handler (PATCH /api/posts/:id): Joi validation first
(400 on failure), then `findByIdAndUpdate(id, body, \x7b new: true \x7d)`:
CastError on an uncastable id (→ 500), 404 when nothing matches, else 200
with the post-update document. -/
def update (store : Store) (id : String) (b : List (String × JValue)) :
    Store × Response :=
  match validateUpdate b with
  | some e => (store, ⟨400, RespBody.error e, none⟩)
  | none =>
    if isValidObjectId id then
      match store.posts.find? (fun p => p.id == id) with
      | none => (store, ⟨404, RespBody.empty, none⟩)
      | some p =>
        ({ posts := updateFirst store.posts id b, counter := store.counter },
          ⟨200, RespBody.post (applyUpdate p b), none⟩)
    else (store, ⟨500, RespBody.empty, none⟩)

/-! ### Order facts about the id comparison -/

theorem charListLe_total : ∀ as bs, charListLe as bs = true ∨ charListLe bs as = true
  | [], _ => Or.inl rfl
  | _ :: _, [] => Or.inr rfl
  | a :: as, b :: bs => by
    by_cases hab : a.toNat < b.toNat
    · exact Or.inl (by simp [charListLe, hab])
    · by_cases hba : b.toNat < a.toNat
      · exact Or.inr (by simp [charListLe, hba])
      · have ih := charListLe_total as bs
        rcases ih with h | h
        · exact Or.inl (by simp [charListLe, hab, hba, h])
        · exact Or.inr (by simp [charListLe, hab, hba, h])

theorem charListLe_trans : ∀ as bs cs, charListLe as bs = true →
    charListLe bs cs = true → charListLe as cs = true
  | [], _, _, _, _ => rfl
  | _ :: _, [], _, h, _ => by simp [charListLe] at h
  | _ :: _, _ :: _, [], _, h => by simp [charListLe] at h
  | a :: as, b :: bs, c :: cs, h₁, h₂ => by
    simp only [charListLe] at h₁ h₂ ⊢
    by_cases hab : a.toNat < b.toNat <;> by_cases hbc : b.toNat < c.toNat <;>
      by_cases hba : b.toNat < a.toNat <;> by_cases hcb : c.toNat < b.toNat <;>
        simp [hab, hbc, hba, hcb] at h₁ h₂ ⊢ <;>
          first
            | omega
            | (have hac : a.toNat < c.toNat := by omega
               simp [hac])
            | (have hac : ¬ a.toNat < c.toNat := by omega
               have hca : ¬ c.toNat < a.toNat := by omega
               simp [hac, hca]
               first
                 | exact charListLe_trans as bs cs h₁ h₂
                 | exact ⟨by omega, charListLe_trans as bs cs h₁ h₂⟩)

instance : IsTotal Post idGe := ⟨fun a b => charListLe_total b.id.data a.id.data⟩

instance : IsTrans Post idGe :=
  ⟨fun _ _ _ hab hbc => charListLe_trans _ _ _ hbc hab⟩

/-! ### Validation inversion lemmas -/

theorem firstErr_eq_none {a b : Option String} (h : firstErr a b = none) :
    a = none ∧ b = none := by
  cases a with
  | none => exact ⟨rfl, h⟩
  | some e => exact absurd h (by simp [firstErr])

theorem checkStrField_eq_none {b : List (String × JValue)} {k : String}
    (h : checkStrField b k = none) :
    ∃ s, lookupField b k = some (JValue.jstr s) ∧ s ≠ "" := by
  unfold checkStrField at h
  cases hl : lookupField b k with
  | none => rw [hl] at h; simp at h
  | some v =>
    rw [hl] at h
    cases v with
    | jstr s =>
      simp only [ite_eq_right_iff] at h
      by_cases hs : s = ""
      · exact absurd (h hs) (by simp)
      · exact ⟨s, rfl, hs⟩
    | jnum n => simp at h
    | jbool v => simp at h
    | jarr xs => simp at h
    | jobj fs => simp at h

theorem checkTagsRequired_eq_none {b : List (String × JValue)}
    (h : checkTagsRequired b = none) :
    ∃ xs, lookupField b "tags" = some (JValue.jarr xs) := by
  unfold checkTagsRequired at h
  cases hl : lookupField b "tags" with
  | none => rw [hl] at h; simp at h
  | some v =>
    rw [hl] at h
    cases v with
    | jstr s => simp at h
    | jnum n => simp at h
    | jbool v => simp at h
    | jarr xs => exact ⟨xs, rfl⟩
    | jobj fs => simp at h

/-- When Joi accepts a create body, all three required fields are present
with the right types (and the strings are non-empty). -/
theorem validateWrite_none_sound {b : List (String × JValue)}
    (h : validateWrite b = none) :
    (∃ t, lookupField b "title" = some (JValue.jstr t) ∧ t ≠ "") ∧
    (∃ s, lookupField b "body" = some (JValue.jstr s) ∧ s ≠ "") ∧
    (∃ xs, lookupField b "tags" = some (JValue.jarr xs)) := by
  unfold validateWrite at h
  obtain ⟨h1, h⟩ := firstErr_eq_none h
  obtain ⟨h2, h⟩ := firstErr_eq_none h
  obtain ⟨h3, _⟩ := firstErr_eq_none h
  exact ⟨checkStrField_eq_none h1, checkStrField_eq_none h2, checkTagsRequired_eq_none h3⟩

/-- A failed validation short-circuits `write` with a 400 carrying the
error detail; the incoming store is returned untouched and the response
does not depend on it. -/
theorem write_of_err {b : List (String × JValue)} {e : String}
    (h : validateWrite b = some e) (store : Store) (now : Nat) :
    write store b now = (store, ⟨400, RespBody.error e, none⟩) := by
  unfold write
  rw [h]

/-! ### Collection lemmas -/

/-- After `findByIdAndRemove` removed the matching document, no document
with that id is left (ids are unique in the real store). -/
theorem find?_eraseP_self (id : String) :
    ∀ l : List Post, (l.map Post.id).Nodup →
      (l.eraseP (fun p => p.id == id)).find? (fun p => p.id == id) = none := by
  intro l
  induction l with
  | nil => intro _; rfl
  | cons p rest ih =>
    intro hnd
    rw [List.map_cons] at hnd
    obtain ⟨hmem, hrest⟩ := List.nodup_cons.mp hnd
    by_cases hp : (p.id == id) = true
    · have he : (p :: rest).eraseP (fun q => q.id == id) = rest := by
        simp [List.eraseP_cons, hp]
      rw [he]
      apply List.find?_eq_none.mpr
      intro q hq hqid
      have hpid : p.id = id := by simpa using hp
      have hqid' : q.id = id := by simpa using hqid
      exact hmem (by
        rw [hpid, ← hqid']
        exact List.mem_map_of_mem Post.id hq)
    · have hp' : (p.id == id) = false := by simpa using hp
      have he : (p :: rest).eraseP (fun q => q.id == id)
          = p :: rest.eraseP (fun q => q.id == id) := by
        simp [List.eraseP_cons, hp']
      rw [he]
      have hf : (p :: rest.eraseP (fun q => q.id == id)).find? (fun q => q.id == id)
          = (rest.eraseP (fun q => q.id == id)).find? (fun q => q.id == id) := by
        simp [List.find?_cons, hp']
      rw [hf]
      exact ih hrest

/-! ### ObjectId facts -/

theorem isHexChar_hexChar : ∀ m, m < 16 → isHexChar (hexChar m) = true := by decide

theorem objectIdOf_valid (n : Nat) : isValidObjectId (objectIdOf n) = true := by
  have hlen : (objectIdOf n).data.length = 24 := by simp [objectIdOf]
  have hall : (objectIdOf n).data.all isHexChar = true := by
    rw [List.all_eq_true]
    intro c hc
    obtain ⟨i, _, hcv⟩ := List.mem_map.mp hc
    rw [← hcv]
    exact isHexChar_hexChar _ (Nat.mod_lt _ (by norm_num))
  simp [isValidObjectId, hlen, hall]

theorem objectIdOf_ne_empty (n : Nat) : objectIdOf n ≠ "" := by
  intro h
  have h24 : (objectIdOf n).data.length = 24 := by simp [objectIdOf]
  rw [h] at h24
  have h0 : ("" : String).data = ([] : List Char) := rfl
  rw [h0] at h24
  simp at h24

theorem jstrsOf_map_jstr (ts : List String) : jstrsOf (ts.map JValue.jstr) = ts := by
  induction ts with
  | nil => rfl
  | cons t ts ih => simp only [jstrsOf, List.map_cons] at ih ⊢; rw [ih]

/-! ### Claims -/

/-- C1: For every create request whose body is missing any of the required
fields `title`, `body`, or `tags`, or in which a provided field has the
wrong type, the write handler responds with status 400 carrying the
validation error detail, and no record is persisted to the store (the
store is returned untouched and the response does not depend on it). -/
theorem claim_C1 : ∀ (store : Store) (b : List (String × JValue)) (now : Nat),
    (missingRequired b || wrongTypedField b) = true →
    (validateWrite b).isSome = true ∧
    ∀ e, validateWrite b = some e →
      write store b now = (store, ⟨400, RespBody.error e, none⟩) := by
  intro store b now hcond
  constructor
  · cases hv : validateWrite b with
    | some e => rfl
    | none =>
      exfalso
      obtain ⟨⟨t, ht, _⟩, ⟨s, hb, _⟩, ⟨xs, hx⟩⟩ := validateWrite_none_sound hv
      simp [missingRequired, wrongTypedField, ht, hb, hx, isStrVal, isArrVal] at hcond
  · exact fun e he => write_of_err he store now

theorem claim_C1_wit :
    (validateWrite ([] : List (String × JValue))).isSome = true ∧
    write ⟨[], 0⟩ [] 0 = (⟨[], 0⟩, ⟨400, RespBody.error "title is required", none⟩) :=
  ⟨(claim_C1 ⟨[], 0⟩ [] 0 (by decide)).1,
    (claim_C1 ⟨[], 0⟩ [] 0 (by decide)).2 "title is required" rfl⟩

/-- C4: For every id path parameter that is not syntactically a valid
ObjectId, `checkObjectId` responds with status 400 and does not invoke the
wrapped operation (the result is the same for every wrapped handler, and
the store is untouched); for every syntactically valid id it passes
control through to the wrapped operation unchanged. -/
theorem claim_C4 : ∀ (id : String) (next : Store → Store × Response) (store : Store),
    (isValidObjectId id = false →
      checkObjectId id next store = (store, ⟨400, RespBody.empty, none⟩) ∧
      ∀ next₂, checkObjectId id next₂ store = checkObjectId id next store) ∧
    (isValidObjectId id = true → checkObjectId id next store = next store) := by
  intro id next store
  refine ⟨fun hv => ⟨?_, fun next₂ => ?_⟩, fun hv => ?_⟩
  · simp [checkObjectId, hv]
  · simp [checkObjectId, hv]
  · simp [checkObjectId, hv]

theorem claim_C4_wit :
    checkObjectId "abc" (fun s => (s, ⟨200, RespBody.empty, none⟩)) ⟨[], 0⟩
        = (⟨[], 0⟩, ⟨400, RespBody.empty, none⟩) ∧
    checkObjectId "aaaaaaaaaaaaaaaaaaaaaaaa" (fun s => (s, ⟨200, RespBody.empty, none⟩)) ⟨[], 0⟩
        = (⟨[], 0⟩, ⟨200, RespBody.empty, none⟩) :=
  ⟨((claim_C4 "abc" (fun s => (s, ⟨200, RespBody.empty, none⟩)) ⟨[], 0⟩).1 (by decide)).1,
    (claim_C4 "aaaaaaaaaaaaaaaaaaaaaaaa" (fun s => (s, ⟨200, RespBody.empty, none⟩))
      ⟨[], 0⟩).2 (by decide)⟩

/-- C6 counterexample: the claim quantifies over every id, but on an id
that is not castable to an ObjectId (here `"abc"`), `findByIdAndRemove`
throws a `CastError`, the catch block answers 500, and the response status
is not 204. -/
theorem claim_C6_cex :
    (remove ⟨[], 0⟩ "abc").2.status = 500 ∧ (remove ⟨[], 0⟩ "abc").2.status ≠ 204 := by
  decide

/-- C6 (amended: for every id that is syntactically a valid ObjectId): the
remove handler responds with status 204 and an empty body regardless of
whether a record with that id existed before the call, and after removing,
a subsequent read of that id returns 404. -/
theorem claim_C6 : ∀ (store : Store) (id : String), isValidObjectId id = true →
    (store.posts.map Post.id).Nodup →
    (remove store id).2 = ⟨204, RespBody.empty, none⟩ ∧
    (read (remove store id).1 id).2 = ⟨404, RespBody.empty, none⟩ := by
  intro store id hv hnd
  constructor
  · simp [remove, hv]
  · simp [remove, hv, read, find?_eraseP_self id store.posts hnd]

theorem claim_C6_wit :
    (remove ⟨[⟨"aaaaaaaaaaaaaaaaaaaaaaaa", "t", "b", [], 0⟩], 1⟩ "aaaaaaaaaaaaaaaaaaaaaaaa").2
        = ⟨204, RespBody.empty, none⟩ ∧
    (read (remove ⟨[⟨"aaaaaaaaaaaaaaaaaaaaaaaa", "t", "b", [], 0⟩], 1⟩
        "aaaaaaaaaaaaaaaaaaaaaaaa").1 "aaaaaaaaaaaaaaaaaaaaaaaa").2
        = ⟨404, RespBody.empty, none⟩ :=
  claim_C6 ⟨[⟨"aaaaaaaaaaaaaaaaaaaaaaaa", "t", "b", [], 0⟩], 1⟩ "aaaaaaaaaaaaaaaaaaaaaaaa"
    (by decide) (by decide)

/-- C8: For every list request whose page query parameter parses to a
number below 1, the list handler responds with status 400 and no body, and
does not reach the store query (the plan is the 400 short-circuit and the
store is returned untouched). -/
theorem claim_C8 : ∀ (store : Store) (s : String) (p : Int),
    parseIntJS (pageString (some s)) = some p → p < 1 →
    listPlan (some s) = none ∧
    list store (some s) = (store, ⟨400, RespBody.empty, none⟩) := by
  intro store s p hp hlt
  have hplan : listPlan (some s) = none := by
    simp [listPlan, hp, pageLtOne, hlt]
  exact ⟨hplan, by simp [list, hplan]⟩

theorem claim_C8_wit :
    listPlan (some "0") = none ∧
    list ⟨[], 0⟩ (some "0") = (⟨[], 0⟩, ⟨400, RespBody.empty, none⟩) :=
  claim_C8 ⟨[], 0⟩ "0" 0 (by decide) (by decide)

/-- C9: For every list request whose page query parameter is a non-empty
string that does not parse as an integer, the handler does not respond
400: `parseInt` yields `NaN` (modelled `none`), the `page < 1` comparison
is false for `NaN`, and the handler proceeds to issue the store query with
a `NaN` skip value. -/
theorem claim_C9 : ∀ (store : Store) (s : String), s ≠ "" → parseIntJS s = none →
    listPlan (some s) = some ⟨none, 10⟩ ∧ (list store (some s)).2.status ≠ 400 := by
  intro store s hs hp
  have hps : pageString (some s) = s := by simp [pageString, hs]
  have hplan : listPlan (some s) = some ⟨none, 10⟩ := by
    simp [listPlan, hps, hp, pageLtOne, Option.map]
  exact ⟨hplan, by simp [list, hplan]⟩

theorem claim_C9_wit :
    listPlan (some "abc") = some ⟨none, 10⟩ ∧
    (list ⟨[], 0⟩ (some "abc")).2.status ≠ 400 :=
  claim_C9 ⟨[], 0⟩ "abc" (by decide) (by decide)

/-- C10: For every create request in which `title` or `body` is present
but equal to the empty string, the write handler responds with status 400
and does not persist a record: Joi rejects empty strings for required
string fields. -/
theorem claim_C10 : ∀ (store : Store) (b : List (String × JValue)) (now : Nat),
    (lookupField b "title" = some (JValue.jstr "") ∨
      lookupField b "body" = some (JValue.jstr "")) →
    (validateWrite b).isSome = true ∧
    ∀ e, validateWrite b = some e →
      write store b now = (store, ⟨400, RespBody.error e, none⟩) := by
  intro store b now hcond
  constructor
  · cases hv : validateWrite b with
    | some e => rfl
    | none =>
      exfalso
      obtain ⟨⟨t, ht, htne⟩, ⟨s, hb, hbne⟩, _⟩ := validateWrite_none_sound hv
      rcases hcond with h | h
      · rw [ht] at h
        exact htne (by simpa using h)
      · rw [hb] at h
        exact hbne (by simpa using h)
  · exact fun e he => write_of_err he store now

theorem claim_C10_wit :
    (validateWrite [("title", JValue.jstr ""), ("body", JValue.jstr "B"),
      ("tags", JValue.jarr [])]).isSome = true ∧
    write ⟨[], 0⟩ [("title", JValue.jstr ""), ("body", JValue.jstr "B"),
        ("tags", JValue.jarr [])] 0
      = (⟨[], 0⟩, ⟨400, RespBody.error "title is not allowed to be empty", none⟩) :=
  ⟨(claim_C10 ⟨[], 0⟩ [("title", JValue.jstr ""), ("body", JValue.jstr "B"),
        ("tags", JValue.jarr [])] 0 (Or.inl rfl)).1,
    (claim_C10 ⟨[], 0⟩ [("title", JValue.jstr ""), ("body", JValue.jstr "B"),
        ("tags", JValue.jarr [])] 0 (Or.inl rfl)).2
      "title is not allowed to be empty" rfl⟩

/-- C5: For every update request on an existing post with a valid partial
body, every field not present in the input keeps its stored value, the
`id` and the schema's timestamp field (`publishedData`) are never altered
by the update operation, and the response is 200 with the post-update
record. -/
theorem claim_C5 : ∀ (store : Store) (id : String) (b : List (String × JValue)) (p : Post),
    validateUpdate b = none → isValidObjectId id = true →
    store.posts.find? (fun q => q.id == id) = some p →
    (update store id b).2 = ⟨200, RespBody.post (applyUpdate p b), none⟩ ∧
    (applyUpdate p b).id = p.id ∧
    (applyUpdate p b).publishedData = p.publishedData ∧
    (lookupField b "title" = none → (applyUpdate p b).title = p.title) ∧
    (lookupField b "body" = none → (applyUpdate p b).body = p.body) ∧
    (lookupField b "tags" = none → (applyUpdate p b).tags = p.tags) := by
  intro store id b p hvb hv hfind
  refine ⟨?_, rfl, rfl, ?_, ?_, ?_⟩
  · simp [update, hvb, hv, hfind]
  · intro h; simp [applyUpdate, h]
  · intro h; simp [applyUpdate, h]
  · intro h; simp [applyUpdate, h]

theorem claim_C5_wit :
    (update ⟨[⟨"aaaaaaaaaaaaaaaaaaaaaaaa", "Old", "B", ["x"], 7⟩], 1⟩
        "aaaaaaaaaaaaaaaaaaaaaaaa" [("title", JValue.jstr "New")]).2
      = ⟨200, RespBody.post (applyUpdate ⟨"aaaaaaaaaaaaaaaaaaaaaaaa", "Old", "B", ["x"], 7⟩
          [("title", JValue.jstr "New")]), none⟩ ∧
    (applyUpdate ⟨"aaaaaaaaaaaaaaaaaaaaaaaa", "Old", "B", ["x"], 7⟩
        [("title", JValue.jstr "New")]).id
      = (⟨"aaaaaaaaaaaaaaaaaaaaaaaa", "Old", "B", ["x"], 7⟩ : Post).id ∧
    (applyUpdate ⟨"aaaaaaaaaaaaaaaaaaaaaaaa", "Old", "B", ["x"], 7⟩
        [("title", JValue.jstr "New")]).publishedData
      = (⟨"aaaaaaaaaaaaaaaaaaaaaaaa", "Old", "B", ["x"], 7⟩ : Post).publishedData ∧
    (lookupField [("title", JValue.jstr "New")] "title" = none →
      (applyUpdate ⟨"aaaaaaaaaaaaaaaaaaaaaaaa", "Old", "B", ["x"], 7⟩
          [("title", JValue.jstr "New")]).title
        = (⟨"aaaaaaaaaaaaaaaaaaaaaaaa", "Old", "B", ["x"], 7⟩ : Post).title) ∧
    (lookupField [("title", JValue.jstr "New")] "body" = none →
      (applyUpdate ⟨"aaaaaaaaaaaaaaaaaaaaaaaa", "Old", "B", ["x"], 7⟩
          [("title", JValue.jstr "New")]).body
        = (⟨"aaaaaaaaaaaaaaaaaaaaaaaa", "Old", "B", ["x"], 7⟩ : Post).body) ∧
    (lookupField [("title", JValue.jstr "New")] "tags" = none →
      (applyUpdate ⟨"aaaaaaaaaaaaaaaaaaaaaaaa", "Old", "B", ["x"], 7⟩
          [("title", JValue.jstr "New")]).tags
        = (⟨"aaaaaaaaaaaaaaaaaaaaaaaa", "Old", "B", ["x"], 7⟩ : Post).tags) :=
  claim_C5 ⟨[⟨"aaaaaaaaaaaaaaaaaaaaaaaa", "Old", "B", ["x"], 7⟩], 1⟩
    "aaaaaaaaaaaaaaaaaaaaaaaa" [("title", JValue.jstr "New")]
    ⟨"aaaaaaaaaaaaaaaaaaaaaaaa", "Old", "B", ["x"], 7⟩ rfl (by decide) rfl

/-- C7 (behavioral content, over the schema's actual field names): for
every valid create request, the response is 200 with a record carrying the
submitted `title`, `body` and `tags`, a non-empty store-assigned id, and
the creation timestamp — which the schema stores under the misspelled key
`publishedData`, not `publishedDate` as the spec names it — and a
subsequent read of that id returns the same record. -/
theorem claim_C7 : ∀ (store : Store) (b : List (String × JValue)) (now : Nat)
    (t bo : String) (ts : List String),
    validateWrite b = none →
    lookupField b "title" = some (JValue.jstr t) →
    lookupField b "body" = some (JValue.jstr bo) →
    lookupField b "tags" = some (JValue.jarr (ts.map JValue.jstr)) →
    objectIdOf store.counter ∉ store.posts.map Post.id →
    (write store b now).2 = ⟨200, RespBody.post (mkPost store b now), none⟩ ∧
    (mkPost store b now).title = t ∧
    (mkPost store b now).body = bo ∧
    (mkPost store b now).tags = ts ∧
    (mkPost store b now).id ≠ "" ∧
    (mkPost store b now).publishedData = now ∧
    (read (write store b now).1 (mkPost store b now).id).2
      = ⟨200, RespBody.post (mkPost store b now), none⟩ := by
  intro store b now t bo ts hv ht hb htags hfresh
  have hresp : write store b now
      = ({ posts := store.posts ++ [mkPost store b now], counter := store.counter + 1 },
        ⟨200, RespBody.post (mkPost store b now), none⟩) := by
    simp [write, hv]
  refine ⟨by rw [hresp], ?_, ?_, ?_, objectIdOf_ne_empty store.counter, rfl, ?_⟩
  · simp [mkPost, getStrField, ht]
  · simp [mkPost, getStrField, hb]
  · simp [mkPost, getTags, htags, jstrsOf_map_jstr]
  · rw [hresp]
    have hval : isValidObjectId (mkPost store b now).id = true := objectIdOf_valid store.counter
    have hfind : (store.posts ++ [mkPost store b now]).find?
        (fun q => q.id == (mkPost store b now).id) = some (mkPost store b now) := by
      rw [List.find?_append]
      have h1 : store.posts.find? (fun q => q.id == (mkPost store b now).id) = none := by
        rw [List.find?_eq_none]
        intro q hq hqid
        apply hfresh
        have hqid' : q.id = (mkPost store b now).id := by simpa using hqid
        have : objectIdOf store.counter = q.id := hqid'.symm
        rw [this]
        exact List.mem_map_of_mem Post.id hq
      rw [h1]
      simp [List.find?]
    simp [read, hval, hfind]

theorem claim_C7_wit :
    (write ⟨[], 0⟩ [("title", JValue.jstr "T"), ("body", JValue.jstr "B"),
        ("tags", JValue.jarr [JValue.jstr "x", JValue.jstr "y"])] 5).2
      = ⟨200, RespBody.post (mkPost ⟨[], 0⟩ [("title", JValue.jstr "T"),
          ("body", JValue.jstr "B"),
          ("tags", JValue.jarr [JValue.jstr "x", JValue.jstr "y"])] 5), none⟩ ∧
    (mkPost ⟨[], 0⟩ [("title", JValue.jstr "T"), ("body", JValue.jstr "B"),
        ("tags", JValue.jarr [JValue.jstr "x", JValue.jstr "y"])] 5).title = "T" ∧
    (mkPost ⟨[], 0⟩ [("title", JValue.jstr "T"), ("body", JValue.jstr "B"),
        ("tags", JValue.jarr [JValue.jstr "x", JValue.jstr "y"])] 5).body = "B" ∧
    (mkPost ⟨[], 0⟩ [("title", JValue.jstr "T"), ("body", JValue.jstr "B"),
        ("tags", JValue.jarr [JValue.jstr "x", JValue.jstr "y"])] 5).tags = ["x", "y"] ∧
    (mkPost ⟨[], 0⟩ [("title", JValue.jstr "T"), ("body", JValue.jstr "B"),
        ("tags", JValue.jarr [JValue.jstr "x", JValue.jstr "y"])] 5).id ≠ "" ∧
    (mkPost ⟨[], 0⟩ [("title", JValue.jstr "T"), ("body", JValue.jstr "B"),
        ("tags", JValue.jarr [JValue.jstr "x", JValue.jstr "y"])] 5).publishedData = 5 ∧
    (read (write ⟨[], 0⟩ [("title", JValue.jstr "T"), ("body", JValue.jstr "B"),
          ("tags", JValue.jarr [JValue.jstr "x", JValue.jstr "y"])] 5).1
        (mkPost ⟨[], 0⟩ [("title", JValue.jstr "T"), ("body", JValue.jstr "B"),
          ("tags", JValue.jarr [JValue.jstr "x", JValue.jstr "y"])] 5).id).2
      = ⟨200, RespBody.post (mkPost ⟨[], 0⟩ [("title", JValue.jstr "T"),
          ("body", JValue.jstr "B"),
          ("tags", JValue.jarr [JValue.jstr "x", JValue.jstr "y"])] 5), none⟩ :=
  claim_C7 ⟨[], 0⟩ [("title", JValue.jstr "T"), ("body", JValue.jstr "B"),
      ("tags", JValue.jarr [JValue.jstr "x", JValue.jstr "y"])] 5 "T" "B" ["x", "y"]
    rfl rfl rfl rfl (by simp)

/-- C2 counterexample: a stored body of exactly 200 characters is not
longer than 200 characters, yet the list output appends the marker
(the code tests `length < 200`, not `length <= 200`), so the displayed
body differs from the stored one. -/
theorem claim_C2_cex :
    jsLength (String.mk (List.replicate 200 'a')) = 200 ∧
    (list ⟨[⟨"aaaaaaaaaaaaaaaaaaaaaaaa", "t",
        String.mk (List.replicate 200 'a'), [], 0⟩], 1⟩ none).2.body
      = RespBody.posts [⟨"aaaaaaaaaaaaaaaaaaaaaaaa", "t",
          String.mk (List.replicate 200 'a') ++ "...", [], 0⟩] ∧
    String.mk (List.replicate 200 'a') ++ "..." ≠ String.mk (List.replicate 200 'a') := by
  set_option maxRecDepth 4000 in decide

/-- C2 (amended: the stored body is kept exactly when it is shorter than
200 characters, and a body of length 200 or more is cut to its first 200
characters plus the marker): every post the list handler returns is the
display copy of a stored post — same id, title, tags and timestamp, with
the body rule above — and the store itself is returned unchanged by
listing. -/
theorem claim_C2 : ∀ (store : Store) (qp : Option String) (ps : List Post) (q : Post),
    (list store qp).2.body = RespBody.posts ps → q ∈ ps →
    (list store qp).1 = store ∧
    ∃ p, p ∈ store.posts ∧ q.id = p.id ∧ q.title = p.title ∧ q.tags = p.tags ∧
      q.publishedData = p.publishedData ∧
      (jsLength p.body < 200 → q.body = p.body) ∧
      (200 ≤ jsLength p.body → q.body = jsSlice p.body 200 ++ "...") := by
  intro store qp ps q hbody hq
  cases hplan : listPlan qp with
  | none =>
    exact absurd hbody (by simp [list, hplan])
  | some lq =>
    have h1 : (list store qp).1 = store := by simp [list, hplan]
    refine ⟨h1, ?_⟩
    have hps : RespBody.posts ((runListQuery store lq).map truncPost) = RespBody.posts ps := by
      rw [← hbody]; simp [list, hplan]
    have hps' : ps = (runListQuery store lq).map truncPost := by
      cases hps; rfl
    rw [hps'] at hq
    obtain ⟨p, hpmem, hpq⟩ := List.mem_map.mp hq
    simp only [runListQuery] at hpmem
    have hp_sorted : p ∈ sortByIdDesc store.posts :=
      List.mem_of_mem_drop (List.mem_of_mem_take hpmem)
    have hp_store : p ∈ store.posts :=
      (List.perm_insertionSort idGe store.posts).mem_iff.mp hp_sorted
    refine ⟨p, hp_store, ?_, ?_, ?_, ?_, ?_, ?_⟩
    · rw [← hpq]; rfl
    · rw [← hpq]; rfl
    · rw [← hpq]; rfl
    · rw [← hpq]; rfl
    · intro h
      rw [← hpq]
      simp [truncPost, truncBody, h]
    · intro h
      have h' : ¬ jsLength p.body < 200 := by omega
      rw [← hpq]
      simp [truncPost, truncBody, h']

theorem claim_C2_wit :
    (list ⟨[⟨"aaaaaaaaaaaaaaaaaaaaaaaa", "t", "short", ["x"], 3⟩], 1⟩ none).1
      = ⟨[⟨"aaaaaaaaaaaaaaaaaaaaaaaa", "t", "short", ["x"], 3⟩], 1⟩ ∧
    ∃ p, p ∈ (⟨[⟨"aaaaaaaaaaaaaaaaaaaaaaaa", "t", "short", ["x"], 3⟩], 1⟩ : Store).posts ∧
      (truncPost ⟨"aaaaaaaaaaaaaaaaaaaaaaaa", "t", "short", ["x"], 3⟩).id = p.id ∧
      (truncPost ⟨"aaaaaaaaaaaaaaaaaaaaaaaa", "t", "short", ["x"], 3⟩).title = p.title ∧
      (truncPost ⟨"aaaaaaaaaaaaaaaaaaaaaaaa", "t", "short", ["x"], 3⟩).tags = p.tags ∧
      (truncPost ⟨"aaaaaaaaaaaaaaaaaaaaaaaa", "t", "short", ["x"], 3⟩).publishedData
        = p.publishedData ∧
      (jsLength p.body < 200 →
        (truncPost ⟨"aaaaaaaaaaaaaaaaaaaaaaaa", "t", "short", ["x"], 3⟩).body = p.body) ∧
      (200 ≤ jsLength p.body →
        (truncPost ⟨"aaaaaaaaaaaaaaaaaaaaaaaa", "t", "short", ["x"], 3⟩).body
          = jsSlice p.body 200 ++ "...") :=
  claim_C2 ⟨[⟨"aaaaaaaaaaaaaaaaaaaaaaaa", "t", "short", ["x"], 3⟩], 1⟩ none
    [truncPost ⟨"aaaaaaaaaaaaaaaaaaaaaaaa", "t", "short", ["x"], 3⟩]
    (truncPost ⟨"aaaaaaaaaaaaaaaaaaaaaaaa", "t", "short", ["x"], 3⟩)
    (by decide) (by decide)

/-- C3: For every valid list request with page number p, 1 <= p, the list
handler answers 200 with the display copies of the page window — the
sorted-descending collection after skipping (p-1)*10 records, capped at
10 — hence at most 10 posts, ordered by descending id, and sets the
`Last-Page` header to the ceiling of the total document count divided
by 10. -/
theorem claim_C3 : ∀ (store : Store) (s : String) (p : Int),
    parseIntJS (pageString (some s)) = some p → 1 ≤ p →
    (list store (some s)).2.status = 200 ∧
    (list store (some s)).2.body = RespBody.posts
      ((((sortByIdDesc store.posts).drop (((p - 1) * 10).toNat)).take 10).map truncPost) ∧
    ((((sortByIdDesc store.posts).drop (((p - 1) * 10).toNat)).take 10).map truncPost).length
      ≤ 10 ∧
    List.Pairwise idGe
      ((((sortByIdDesc store.posts).drop (((p - 1) * 10).toNat)).take 10).map truncPost) ∧
    (list store (some s)).2.lastPage = some (store.posts.length ⌈/⌉ 10) := by
  intro store s p hp h1p
  have hlt : pageLtOne (some p) = false := by
    simp [pageLtOne]; omega
  have hplan : listPlan (some s) = some ⟨some ((p - 1) * 10), 10⟩ := by
    simp [listPlan, hp, hlt]
  have hrun : runListQuery store ⟨some ((p - 1) * 10), 10⟩
      = ((sortByIdDesc store.posts).drop (((p - 1) * 10).toNat)).take 10 := rfl
  have hsorted : List.Pairwise idGe (sortByIdDesc store.posts) :=
    List.sorted_insertionSort idGe store.posts
  have hsub : (((sortByIdDesc store.posts).drop (((p - 1) * 10).toNat)).take 10).Sublist
      (sortByIdDesc store.posts) :=
    (List.take_sublist _ _).trans (List.drop_sublist _ _)
  refine ⟨?_, ?_, ?_, ?_, ?_⟩
  · simp [list, hplan]
  · simp [list, hplan, hrun]
  · rw [List.length_map, List.length_take]
    exact Nat.min_le_left _ _
  · exact (List.Pairwise.sublist hsub hsorted).map truncPost (fun a b h => h)
  · have hcd : store.posts.length ⌈/⌉ 10 = (store.posts.length + 10 - 1) / 10 :=
      Nat.ceilDiv_eq_add_pred_div _ _
    have h9 : (store.posts.length + 10 - 1) / 10 = (store.posts.length + 9) / 10 := by
      omega
    simp [list, hplan, lastPageOf, hcd, h9]

theorem claim_C3_wit :
    (list ⟨[⟨objectIdOf 0, "t0", "b0", [], 1⟩, ⟨objectIdOf 1, "t1", "b1", [], 2⟩], 2⟩
        (some "1")).2.status = 200 ∧
    (list ⟨[⟨objectIdOf 0, "t0", "b0", [], 1⟩, ⟨objectIdOf 1, "t1", "b1", [], 2⟩], 2⟩
        (some "1")).2.body = RespBody.posts
      ((((sortByIdDesc [⟨objectIdOf 0, "t0", "b0", [], 1⟩,
            ⟨objectIdOf 1, "t1", "b1", [], 2⟩]).drop ((((1 : Int) - 1) * 10).toNat)).take
          10).map truncPost) ∧
    ((((sortByIdDesc [⟨objectIdOf 0, "t0", "b0", [], 1⟩,
          ⟨objectIdOf 1, "t1", "b1", [], 2⟩]).drop ((((1 : Int) - 1) * 10).toNat)).take
        10).map truncPost).length ≤ 10 ∧
    List.Pairwise idGe
      ((((sortByIdDesc [⟨objectIdOf 0, "t0", "b0", [], 1⟩,
            ⟨objectIdOf 1, "t1", "b1", [], 2⟩]).drop ((((1 : Int) - 1) * 10).toNat)).take
          10).map truncPost) ∧
    (list ⟨[⟨objectIdOf 0, "t0", "b0", [], 1⟩, ⟨objectIdOf 1, "t1", "b1", [], 2⟩], 2⟩
        (some "1")).2.lastPage
      = some ((⟨[⟨objectIdOf 0, "t0", "b0", [], 1⟩,
          ⟨objectIdOf 1, "t1", "b1", [], 2⟩], 2⟩ : Store).posts.length ⌈/⌉ 10) :=
  claim_C3 ⟨[⟨objectIdOf 0, "t0", "b0", [], 1⟩, ⟨objectIdOf 1, "t1", "b1", [], 2⟩], 2⟩
    "1" 1 (by decide) (by decide)

end PostsApi
